import Mathlib

/-!
# ArUco marker tools: the orchestration of the two executables

Shallow embedding of the two `main` functions of the repository:

* `src/pose_estimation/src/main.cpp` (the pose-estimation viewer), embedded as `poseMain`;
* `src/detect_marker/src/detect_markers_realsense.cpp` (the marker-detection viewer),
  embedded as `detectMain`.

Both programs are glue around external libraries (OpenCV, the ArUco module, librealsense and
the helpers of `fdcl_common.hpp`).  Every external call is recorded as an `Event` in a trace,
and everything an external call returns is read from an environment `Env`: the answers of the
command-line parser, whether the video file opens, whether `start()` throws, and, for the
`i`-th turn of the frame loop, a `FrameInput` holding what the frame source, the detector, the
pose solver and the key poll answer in that turn.

Conventions of the embedding:

* `float` and `double` values are rationals (`Rat`); the code only compares the marker length
  with zero and passes the other values on unchanged;
* `std::vector` indexing is `List` lookup returning an `Option`; a lookup that misses is
  undefined behaviour in C++ and ends the run with `Outcome.fault`;
* the endless frame loop runs on a fuel counter, one unit per turn; a run that uses all its fuel
  ends with `Outcome.running`;
* only the calls written in `main` are events; what the destructors of the automatic objects
  (`in_video`, `rs_pipe`, `rs_cfg`) do when `main` returns is library code and is not modelled;
* library calls inside the frame loop return normally, with one exception that the code itself
  makes observable: the accessors of an absent colour frame, whose behaviour is the field
  `Env.nullAccess`.
-/

namespace Aruco

/-! ## Data -/

/-- The payload of an `rs2::error`: failed function, its arguments, and the description. -/
structure RsError where
  failedFunction : String
  failedArgs : String
  what : String
deriving DecidableEq, Repr

/-- A `cv::Point2f`. -/
abbrev Point2f := Rat × Rat

/-- A `cv::Vec3d`; `v0`, `v1`, `v2` are the components read by `operator()(0..2)`. -/
structure Vec3d where
  v0 : Rat
  v1 : Rat
  v2 : Rat
deriving DecidableEq, Repr

/-- What the outside world answers during one turn of the frame loop. -/
structure FrameInput where
  /-- result of `in_video.grab()` -/
  grabOk : Bool
  /-- result of `image.empty()` after `in_video.retrieve(image)` -/
  retrievedEmpty : Bool
  /-- truth value of the colour sub-frame `color` of the pulled frameset -/
  colorPresent : Bool
  /-- the vector `ids` as filled by `detectMarkers` -/
  ids : List Int
  /-- the vector `corners` as filled by `detectMarkers` -/
  corners : List (List Point2f)
  /-- the vector `rvecs` as filled by `estimatePoseSingleMarkers` -/
  rvecs : List Vec3d
  /-- the vector `tvecs` as filled by `estimatePoseSingleMarkers` -/
  tvecs : List Vec3d
  /-- the `int` returned by `cv::waitKey` -/
  key : Int

/-- Everything the program reads from outside. -/
structure Env where
  /-- result of `parse_inputs(parser, about)` -/
  parseOk : Bool
  /-- result of `parser.has("v")` -/
  hasV : Bool
  /-- result of `parse_video_in(in_video, parser)` -/
  videoOpens : Bool
  /-- the error thrown by `start()`: `some e` when it throws `e`, `none` when it returns -/
  startThrows : Option RsError
  /-- result of `parser.get<int>("d")` -/
  dictionaryId : Int
  /-- result of `parser.get<float>("l")` -/
  markerLength : Rat
  /-- matrix read from the entry `camera_matrix` of the calibration file -/
  cameraMatrix : List Rat
  /-- matrix read from the entry `distortion_coefficients` of the calibration file -/
  distCoeffs : List Rat
  /-- behaviour of `get_width`, `get_height`, `get_data` on an absent frame:
  `some e` when they throw `e`, `none` when they return -/
  nullAccess : Option RsError
  /-- the answers for the turns `0, 1, 2, ...` of the frame loop -/
  frames : Nat → FrameInput

/-- The external calls and writes made by the two programs. -/
inductive Event where
  | parseInputs (about : String)
  | parseVideoIn
  | enableStream (width height fps : Nat)
  | pipeStart
  | cerrRealSense (e : RsError)
  | cerrMarkerLength
  | getDictionary (id : Int)
  | readCalibration
  | grab
  | retrieve
  | waitForFrames
  | getColorFrame
  | frameAccess (present : Bool)
  | clone
  | copyTo
  | detectMarkers
  | drawDetectedMarkers (corners : List (List Point2f)) (ids : List Int)
  | estimatePose (corners : List (List Point2f)) (markerLength : Rat)
      (cameraMatrix distCoeffs : List Rat)
  | coutPose (tvec rvec : Vec3d)
  | drawAxis (cameraMatrix distCoeffs : List Rat) (rvec tvec : Vec3d) (length : Rat)
  | drawText (label : String) (value : Rat) (x y : Int)
  | imshow (window : String)
  | waitKey (ms : Int)
  | videoRelease
  | pipeStop
deriving DecidableEq, Repr

/-- How one turn of a frame loop ends. -/
inductive Ctl where
  /-- the next turn follows (end of the body, or `continue`) -/
  | next
  /-- the statement `break` -/
  | brk
  /-- a vector was indexed out of bounds -/
  | fault
  /-- an `rs2::error` left the body -/
  | throw (e : RsError)
deriving DecidableEq, Repr

/-- How a run of `main` ends. -/
inductive Outcome where
  /-- the function `main` returned the status `code` -/
  | exit (code : Int)
  /-- an `rs2::error` left `main` uncaught -/
  | uncaught (e : RsError)
  /-- a vector was indexed out of bounds -/
  | fault
  /-- the fuel ran out while the frame loop was still turning -/
  | running
deriving DecidableEq, Repr

/-- A run: the external calls in order, and how it ended. -/
structure Run where
  trace : List Event
  outcome : Outcome
deriving DecidableEq, Repr

/-- The conversion `(char)` of an `int` (two-complement wrap to 8 bits, `char` signed). -/
def toChar (k : Int) : Int := (k + 128) % 256 - 128

/-- The events that only the frame loop produces. -/
def Event.inLoop : Event → Bool
  | .grab | .retrieve | .waitForFrames | .getColorFrame | .frameAccess _ | .clone | .copyTo
  | .detectMarkers | .drawDetectedMarkers _ _ | .estimatePose _ _ _ _ | .coutPose _ _
  | .drawAxis _ _ _ _ _ | .drawText _ _ _ _ | .imshow _ | .waitKey _ => true
  | _ => false

/-- The drawing calls on `image_copy`. -/
def Event.isDraw : Event → Bool
  | .drawDetectedMarkers _ _ | .drawAxis _ _ _ _ _ | .drawText _ _ _ _ => true
  | _ => false

/-- The `drawText` calls. -/
def Event.isText : Event → Bool
  | .drawText _ _ _ _ => true
  | _ => false

/-! ## The pose-estimation tool (`src/pose_estimation/src/main.cpp`) -/

/-- The last argument of `drawAxis` (line 136): `0.1`. -/
def axisLength : Rat := 1 / 10

/-- The body of the loop of lines 133-146 for one marker with pose `(r, t)`: one `drawAxis` and
the three `drawText` calls, which read `tvecs[0]` (here `t0`). -/
def axisStep (env : Env) (t0 r t : Vec3d) : List Event :=
  [ .drawAxis env.cameraMatrix env.distCoeffs r t axisLength,
    .drawText "x" t0.v0 10 30,
    .drawText "y" t0.v1 10 50,
    .drawText "z" t0.v2 10 70 ]

/-- The loop `for (int i = 0; i < ids.size(); i++)` of lines 133-146, from the index `i` on.
The flag is `false` when `rvecs[i]` or `tvecs[i]` is out of bounds. -/
def axisLoop (env : Env) (fi : FrameInput) (t0 : Vec3d) : Nat → Nat → List Event × Bool
  | 0, _ => ([], true)
  | fuel + 1, i =>
    if i < fi.ids.length then
      match fi.rvecs[i]?, fi.tvecs[i]? with
      | some r, some t =>
        let rest := axisLoop env fi t0 fuel (i + 1)
        (axisStep env t0 r t ++ rest.1, rest.2)
      | _, _ => ([], false)
    else ([], true)

/-- Lines 149-153: show the frame, poll the key for `wait_time = 10` ms. -/
def poseShow : List Event := [.imshow "Pose estimation", .waitKey 10]

/-- Lines 151-153: `break` when `(char)` of the polled key is 27. -/
def keyCtl (fi : FrameInput) : Ctl := if toChar fi.key = 27 then .brk else .next

/-- Lines 114-153: the part of the loop body that follows the acquisition of a frame. -/
def poseBody (env : Env) (fi : FrameInput) : List Event × Ctl :=
  let pre : List Event := [.copyTo, .detectMarkers]
  if 0 < fi.ids.length then
    let est : List Event :=
      [ .drawDetectedMarkers fi.corners fi.ids,
        .estimatePose fi.corners env.markerLength env.cameraMatrix env.distCoeffs ]
    match fi.tvecs[0]?, fi.rvecs[0]? with
    | some t0, some r0 =>
      match axisLoop env fi t0 fi.ids.length 0 with
      | (axes, true) => (pre ++ est ++ [.coutPose t0 r0] ++ axes ++ poseShow, keyCtl fi)
      | (axes, false) => (pre ++ est ++ [.coutPose t0 r0] ++ axes, .fault)
    | _, _ => (pre ++ est, .fault)
  else (pre ++ poseShow, keyCtl fi)

/-- Lines 95-153: one turn of the frame loop. -/
def poseIteration (env : Env) (fi : FrameInput) : List Event × Ctl :=
  if env.hasV then
    if !fi.grabOk then ([.grab], .brk)
    else if fi.retrievedEmpty then ([.grab, .retrieve], .brk)
    else
      let b := poseBody env fi
      ([.grab, .retrieve] ++ b.1, b.2)
  else
    if !fi.colorPresent then ([.waitForFrames, .getColorFrame], .next)
    else
      let b := poseBody env fi
      ([.waitForFrames, .getColorFrame, .frameAccess true, .clone] ++ b.1, b.2)

/-- Lines 94-154: the loop `for (;;)`, from the turn `i` on, for at most `fuel` turns.
The result is the trace of the loop and the way it was left. -/
def poseLoop (env : Env) : Nat → Nat → List Event × Outcome
  | 0, _ => ([], .running)
  | fuel + 1, i =>
    match poseIteration env (env.frames i) with
    | (evs, .next) =>
      let rest := poseLoop env fuel (i + 1)
      (evs ++ rest.1, rest.2)
    | (evs, .brk) => (evs, .exit 0)
    | (evs, .fault) => (evs, .fault)
    | (evs, .throw e) => (evs, .uncaught e)

/-- Lines 156-157: the cleanup guarded by `useVideoFile` and `rs_started`. -/
def poseCleanup (useVideoFile rs_started : Bool) : List Event :=
  (if useVideoFile then [.videoRelease] else []) ++ (if rs_started then [.pipeStop] else [])

/-- Lines 69-159, reached with the flags `useVideoFile` and `rs_started` set by the startup. -/
def poseAfterStartup (env : Env) (fuel : Nat) (useVideoFile rs_started : Bool) : Run :=
  if env.markerLength ≤ 0 then
    ⟨[.cerrMarkerLength], .exit 1⟩
  else
    let setup : List Event := [.getDictionary env.dictionaryId, .readCalibration]
    match poseLoop env fuel 0 with
    | (evs, .exit _) => ⟨setup ++ evs ++ poseCleanup useVideoFile rs_started, .exit 0⟩
    | (evs, o) => ⟨setup ++ evs, o⟩

/-- Prefix a run with the events that came before it. -/
def Run.after (evs : List Event) (r : Run) : Run := ⟨evs ++ r.trace, r.outcome⟩

/-- The function `main` of the pose-estimation tool. -/
def poseMain (env : Env) (fuel : Nat) : Run :=
  let parsed : List Event := [.parseInputs "Pose estimation of ArUco marker images"]
  if !env.parseOk then ⟨parsed, .exit 1⟩
  else
    -- line 50: useVideoFile is the flag hasV; line 51: rs_started starts as false
    if env.hasV then
      if !env.videoOpens then ⟨parsed ++ [.parseVideoIn], .exit 1⟩
      else (poseAfterStartup env fuel true false).after (parsed ++ [.parseVideoIn])
    else
      match env.startThrows with
      | some e =>
        ⟨parsed ++ [.enableStream 640 480 30, .pipeStart, .cerrRealSense e], .exit 1⟩
      | none =>
        (poseAfterStartup env fuel false true).after
          (parsed ++ [.enableStream 640 480 30, .pipeStart])

/-! ## The marker-detection tool (`src/detect_marker/src/detect_markers_realsense.cpp`) -/

/-- Lines 32-55: one turn of the loop `while (true)`. -/
def detectIteration (env : Env) (fi : FrameInput) : List Event × Ctl :=
  let acq : List Event := [.waitForFrames, .getColorFrame, .frameAccess fi.colorPresent]
  match (if fi.colorPresent then none else env.nullAccess) with
  | some e => (acq, .throw e)
  | none =>
    let draw : List Event :=
      if !fi.ids.isEmpty then [.drawDetectedMarkers fi.corners fi.ids] else []
    (acq ++ [.clone, .detectMarkers] ++ draw ++ [.imshow "Detected markers", .waitKey 1],
      keyCtl fi)

/-- Lines 31-56: the loop `while (true)`, from the turn `i` on, for at most `fuel` turns. -/
def detectLoop (env : Env) : Nat → Nat → List Event × Outcome
  | 0, _ => ([], .running)
  | fuel + 1, i =>
    match detectIteration env (env.frames i) with
    | (evs, .next) =>
      let rest := detectLoop env fuel (i + 1)
      (evs ++ rest.1, rest.2)
    | (evs, .brk) => (evs, .exit 0)
    | (evs, .fault) => (evs, .fault)
    | (evs, .throw e) => (evs, .uncaught e)

/-- The function `main` of the marker-detection tool. -/
def detectMain (env : Env) (fuel : Nat) : Run :=
  let parsed : List Event := [.parseInputs "Detect ArUco marker images"]
  if !env.parseOk then ⟨parsed, .exit 1⟩
  else
    let setup : List Event :=
      parsed ++ [.getDictionary env.dictionaryId, .enableStream 1280 720 30, .pipeStart]
    match env.startThrows with
    | some e => ⟨setup, .uncaught e⟩
    | none =>
      match detectLoop env fuel 0 with
      | (evs, .exit _) => ⟨setup ++ evs ++ [.pipeStop], .exit 0⟩
      | (evs, o) => ⟨setup ++ evs, o⟩

/-! ## Predicates used by the statements -/

/-- The postconditions of the external library: `detectMarkers` fills `ids` and `corners` with
the same number of entries, and `estimatePoseSingleMarkers` fills `rvecs` and `tvecs` with one
entry per entry of `corners`. -/
def LibPost (fi : FrameInput) : Prop :=
  fi.ids.length = fi.corners.length ∧ fi.rvecs.length = fi.corners.length ∧
    fi.tvecs.length = fi.corners.length

/-- A frame was acquired in this turn of the pose tool: the body after the acquisition runs. -/
def acquired (env : Env) (fi : FrameInput) : Bool :=
  if env.hasV then fi.grabOk && !fi.retrievedEmpty else fi.colorPresent

/-- The input source is exhausted in this turn (video mode only): `grab()` fails or the
retrieved frame is empty. -/
def exhausted (env : Env) (fi : FrameInput) : Bool :=
  env.hasV && (!fi.grabOk || fi.retrievedEmpty)

/-- The key polled in this turn, after the frame was displayed, is the escape key. -/
def escapePolled (env : Env) (fi : FrameInput) : Bool :=
  acquired env fi && decide (toChar fi.key = 27)

/-- The events of the acquisition that precede the body in a turn with a frame. -/
def acquisition (env : Env) : List Event :=
  if env.hasV then [.grab, .retrieve]
  else [.waitForFrames, .getColorFrame, .frameAccess true, .clone]

/-- How often an event satisfying `p` occurs. -/
def occurrences (p : Event → Bool) (evs : List Event) : Nat := (evs.filter p).length

/-- The events of the video-file source: opening, grabbing, retrieving, releasing. -/
def Event.isVideo : Event → Bool
  | .parseVideoIn | .grab | .retrieve | .videoRelease => true
  | _ => false

/-- The event is a call of `detectMarkers`. -/
def Event.isDetect : Event → Bool
  | .detectMarkers => true
  | _ => false

/-- The event is a call of `estimatePoseSingleMarkers`. -/
def Event.isEstimate : Event → Bool
  | .estimatePose _ _ _ _ => true
  | _ => false

/-- The event is a line written to standard output. -/
def Event.isCout : Event → Bool
  | .coutPose _ _ => true
  | _ => false

/-- The event is a call of `imshow`. -/
def Event.isShow : Event → Bool
  | .imshow _ => true
  | _ => false

/-- The event is a call of `stop()` on the camera pipeline. -/
def Event.isStop : Event → Bool
  | .pipeStop => true
  | _ => false

/-- The event is a call of `release()` on the video file. -/
def Event.isRelease : Event → Bool
  | .videoRelease => true
  | _ => false

/-! ## Concrete inputs -/

/-- A turn in which a frame arrives, no marker is seen and no key is pressed. -/
def frameIdle : FrameInput :=
  { grabOk := true, retrievedEmpty := false, colorPresent := true,
    ids := [], corners := [], rvecs := [], tvecs := [], key := -1 }

/-- A pull whose frameset has no colour sub-frame. -/
def frameNoColor : FrameInput := { frameIdle with colorPresent := false }

/-- A turn in which two markers are seen and the escape key is pressed. -/
def frameTwoMarkers : FrameInput :=
  { grabOk := true, retrievedEmpty := false, colorPresent := true,
    ids := [7, 3],
    corners := [[(0, 0), (4, 0), (4, 4), (0, 4)], [(10, 10), (14, 10), (14, 14), (10, 14)]],
    rvecs := [⟨1, 2, 3⟩, ⟨4, 5, 6⟩],
    tvecs := [⟨7, 8, 9⟩, ⟨10, 11, 12⟩],
    key := 27 }

/-- A frame on which the library postconditions fail: one id, no pose. -/
def frameNoPose : FrameInput :=
  { frameIdle with ids := [7], corners := [[(0, 0), (4, 0), (4, 4), (0, 4)]] }

/-- A turn in which the video file has no further frame. -/
def frameEnd : FrameInput := { frameIdle with grabOk := false }

/-- The error used in the concrete inputs. -/
def noDevice : RsError :=
  { failedFunction := "rs2_pipeline_start_with_config", failedArgs := "pipe, config",
    what := "No device connected" }

/-- The error of the SDK for an accessor called on an absent frame. -/
def nullFrame : RsError :=
  { failedFunction := "rs2_get_frame_width", failedArgs := "frame:nullptr",
    what := "null pointer passed for argument frame" }

/-- Command line `-d 0 -l 0`: live mode, the camera starts, marker length zero. -/
def envLiveZero : Env :=
  { parseOk := true, hasV := false, videoOpens := false, startThrows := none,
    dictionaryId := 0, markerLength := 0, cameraMatrix := [], distCoeffs := [],
    nullAccess := some nullFrame, frames := fun _ => frameIdle }

/-- Command line `-d 0 -l 1 -v missing.mp4`: the video file cannot be opened. -/
def envVideoMissing : Env :=
  { envLiveZero with hasV := true, videoOpens := false, markerLength := 1 }

/-- Command line `-d 0 -l 1 -v clip.mp4`: the video file opens and holds two frames. -/
def envVideo : Env :=
  { envLiveZero with
    hasV := true, videoOpens := true, markerLength := 1,
    frames := fun i => if i < 2 then frameIdle else frameEnd }

/-- Command line `-d 0 -l 1`, no camera connected: `start()` throws. -/
def envStartFails : Env :=
  { envLiveZero with markerLength := 1, startThrows := some noDevice }

/-- Command line `-d 0 -l 1`, the camera starts, the second pull has no colour sub-frame, the
third turn sees two markers and the escape key. -/
def envLive : Env :=
  { envLiveZero with
    markerLength := 1,
    frames := fun i => if i = 1 then frameNoColor else if i = 2 then frameTwoMarkers
      else frameIdle }

/-! ## Lemmas on the marker loop and the loop body -/

/-- With one pose per marker, the marker loop never misses a lookup, and from the index `i` on
it performs `axisStep` for the poses `i, i + 1, ...` in order. -/
theorem axisLoop_eq (env : Env) (fi : FrameInput) (t0 : Vec3d)
    (hr : fi.rvecs.length = fi.ids.length) (ht : fi.tvecs.length = fi.ids.length) :
    ∀ (fuel i : Nat), fi.ids.length ≤ i + fuel →
      axisLoop env fi t0 fuel i =
        ((List.zip (fi.rvecs.drop i) (fi.tvecs.drop i)).flatMap
          (fun p => axisStep env t0 p.1 p.2), true) := by
  intro fuel
  induction fuel with
  | zero =>
    intro i hi
    have h1 : fi.rvecs.drop i = [] := List.drop_eq_nil_of_le (by omega)
    simp [axisLoop, h1]
  | succ fuel ih =>
    intro i hi
    by_cases hlt : i < fi.ids.length
    · have hri : i < fi.rvecs.length := by omega
      have hti : i < fi.tvecs.length := by omega
      have h1 : fi.rvecs[i]? = some fi.rvecs[i] := List.getElem?_eq_getElem hri
      have h2 : fi.tvecs[i]? = some fi.tvecs[i] := List.getElem?_eq_getElem hti
      have h3 : fi.rvecs.drop i = fi.rvecs[i] :: fi.rvecs.drop (i + 1) :=
        List.drop_eq_getElem_cons hri
      have h4 : fi.tvecs.drop i = fi.tvecs[i] :: fi.tvecs.drop (i + 1) :=
        List.drop_eq_getElem_cons hti
      have hrec := ih (i + 1) (by omega)
      simp only [axisLoop, hlt, if_true, h1, h2, h3, h4, hrec, List.zip_cons_cons,
        List.flatMap_cons]
    · have h1 : fi.rvecs.drop i = [] := List.drop_eq_nil_of_le (by omega)
      simp [axisLoop, hlt, h1]

/-- The body after the acquisition, when no marker is detected. -/
theorem poseBody_no_marker (env : Env) (fi : FrameInput) (h : fi.ids = []) :
    poseBody env fi = ([.copyTo, .detectMarkers] ++ poseShow, keyCtl fi) := by
  simp [poseBody, h]

/-- The body after the acquisition, when at least one marker is detected and the library
postconditions hold: every lookup succeeds, and the calls are laid out as in lines 123-149. -/
theorem poseBody_markers (env : Env) (fi : FrameInput) (hlib : LibPost fi) (h : fi.ids ≠ []) :
    ∃ t0 r0, fi.tvecs[0]? = some t0 ∧ fi.rvecs[0]? = some r0 ∧
      poseBody env fi =
        ([.copyTo, .detectMarkers] ++
          [ .drawDetectedMarkers fi.corners fi.ids,
            .estimatePose fi.corners env.markerLength env.cameraMatrix env.distCoeffs ] ++
          [.coutPose t0 r0] ++
          (List.zip fi.rvecs fi.tvecs).flatMap (fun p => axisStep env t0 p.1 p.2) ++
          poseShow, keyCtl fi) := by
  obtain ⟨h1, h2, h3⟩ := hlib
  have hpos : 0 < fi.ids.length := List.length_pos.mpr h
  have hr : fi.rvecs.length = fi.ids.length := by omega
  have ht : fi.tvecs.length = fi.ids.length := by omega
  have hr0 : 0 < fi.rvecs.length := by omega
  have ht0 : 0 < fi.tvecs.length := by omega
  refine ⟨fi.tvecs[0], fi.rvecs[0], List.getElem?_eq_getElem ht0,
    List.getElem?_eq_getElem hr0, ?_⟩
  have hloop := axisLoop_eq env fi fi.tvecs[0] hr ht fi.ids.length 0 (by omega)
  simp only [List.drop_zero] at hloop
  simp only [poseBody, hpos, if_true, List.getElem?_eq_getElem ht0,
    List.getElem?_eq_getElem hr0, hloop]

/-- Under the library postconditions the body after the acquisition ends through the key
check. -/
theorem poseBody_ctl (env : Env) (fi : FrameInput) (hlib : LibPost fi) :
    (poseBody env fi).2 = keyCtl fi := by
  by_cases h : fi.ids = []
  · rw [poseBody_no_marker env fi h]
  · obtain ⟨t0, r0, -, -, hb⟩ := poseBody_markers env fi hlib h
    rw [hb]

/-- Under the library postconditions a turn of the pose loop leaves the loop exactly when the
source is exhausted or the escape key is polled, and otherwise goes on to the next turn. -/
theorem poseIteration_ctl (env : Env) (fi : FrameInput) (hlib : LibPost fi) :
    (poseIteration env fi).2 =
      if exhausted env fi || escapePolled env fi then Ctl.brk else Ctl.next := by
  have hb := poseBody_ctl env fi hlib
  unfold poseIteration exhausted escapePolled acquired keyCtl at *
  cases hv : env.hasV <;> cases hg : fi.grabOk <;> cases he : fi.retrievedEmpty <;>
    cases hc : fi.colorPresent <;> by_cases hk : toChar fi.key = 27 <;>
    simp [hb, hk, keyCtl]

/-! ## Lemmas on the frame loops -/

/-- When the turns `i, ..., i + k - 1` go on and the turn `i + k` breaks, the pose loop started
at `i` with more than `k` units of fuel performs exactly these `k + 1` turns and is left
normally. -/
theorem poseLoop_first_break (env : Env) :
    ∀ (k i fuel : Nat), k < fuel →
      (∀ j, j < k → (poseIteration env (env.frames (i + j))).2 = Ctl.next) →
      (poseIteration env (env.frames (i + k))).2 = Ctl.brk →
      poseLoop env fuel i =
        ((List.range (k + 1)).flatMap (fun j => (poseIteration env (env.frames (i + j))).1),
          Outcome.exit 0) := by
  intro k
  induction k with
  | zero =>
    intro i fuel hf _ hbrk
    obtain ⟨f, rfl⟩ : ∃ f, fuel = f + 1 := ⟨fuel - 1, by omega⟩
    rw [Nat.add_zero] at hbrk
    have hpair : poseIteration env (env.frames i) =
        ((poseIteration env (env.frames i)).1, Ctl.brk) := by rw [← hbrk]
    simp only [poseLoop]
    rw [hpair]
    simp [List.range_succ_eq_map]
  | succ k ih =>
    intro i fuel hf hnext hbrk
    obtain ⟨f, rfl⟩ : ∃ f, fuel = f + 1 := ⟨fuel - 1, by omega⟩
    have h0 : (poseIteration env (env.frames i)).2 = Ctl.next := by
      simpa using hnext 0 (by omega)
    have hpair : poseIteration env (env.frames i) =
        ((poseIteration env (env.frames i)).1, Ctl.next) := by rw [← h0]
    have hrec := ih (i + 1) f (by omega)
      (fun j hj => by
        have := hnext (j + 1) (by omega)
        rwa [show i + (j + 1) = i + 1 + j by omega] at this)
      (by rwa [show i + (k + 1) = i + 1 + k by omega] at hbrk)
    simp only [poseLoop]
    rw [hpair]
    simp only [hrec]
    rw [List.range_succ_eq_map (k + 1), List.flatMap_cons, List.flatMap_map]
    simp only [Nat.add_zero, Nat.succ_eq_add_one, Function.comp_def]
    have hfun : (fun j => (poseIteration env (env.frames (i + 1 + j))).1) =
        (fun j => (poseIteration env (env.frames (i + (j + 1)))).1) := by
      funext j
      rw [show i + 1 + j = i + (j + 1) by omega]
    rw [hfun]

/-- Under the library postconditions no turn of the pose loop indexes out of bounds. -/
theorem poseIteration_no_fault (env : Env) (fi : FrameInput) (hlib : LibPost fi) :
    (poseIteration env fi).2 ≠ Ctl.fault := by
  rw [poseIteration_ctl env fi hlib]
  split <;> simp

/-- Under the library postconditions the pose loop never ends in a fault. -/
theorem poseLoop_no_fault (env : Env) (hlib : ∀ i, LibPost (env.frames i)) :
    ∀ (fuel i : Nat), (poseLoop env fuel i).2 ≠ Outcome.fault := by
  intro fuel
  induction fuel with
  | zero => intro i; simp [poseLoop]
  | succ fuel ih =>
    intro i
    have hnf := poseIteration_no_fault env (env.frames i) (hlib i)
    simp only [poseLoop]
    split
    · exact ih (i + 1)
    · simp
    · rename_i evs heq
      rw [heq] at hnf
      exact absurd rfl hnf
    · simp

/-! ## Startup of the pose-estimation tool -/

/-- C1, as stated, fails: with the command line `-d 0 -l 0` in live mode the arguments parse,
the marker length is not positive, and `start()` has been called before `main` returns. -/
theorem pose_nonpositive_length_stream_started :
    envLiveZero.parseOk = true ∧ envLiveZero.markerLength ≤ 0 ∧
      ¬ ((poseMain envLiveZero 1).outcome = Outcome.exit 1 ∧
          Event.pipeStart ∉ (poseMain envLiveZero 1).trace ∧
          Event.parseVideoIn ∉ (poseMain envLiveZero 1).trace) := by
  decide

/-- C1, amended: when the command line parses and the marker length is at most zero, `main`
returns 1 and the frame loop is never entered (no frame is acquired, nothing is detected or
displayed); the length is checked after the input source was selected, so the video file open
(with `-v`) or the camera `start()` (without `-v`) has been called before the return. -/
theorem pose_nonpositive_length_exit (env : Env) (fuel : Nat)
    (hparse : env.parseOk = true) (hlen : env.markerLength ≤ 0) :
    (poseMain env fuel).outcome = Outcome.exit 1 ∧
      (∀ e ∈ (poseMain env fuel).trace, e.inLoop = false) ∧
      (env.hasV = true → Event.parseVideoIn ∈ (poseMain env fuel).trace) ∧
      (env.hasV = false → Event.pipeStart ∈ (poseMain env fuel).trace) := by
  unfold poseMain poseAfterStartup Run.after
  cases hv : env.hasV <;> cases ho : env.videoOpens <;> cases hs : env.startThrows <;>
    simp [hparse, hlen, Event.inLoop]

/-- The amended statement at the command line `-d 0 -l 0` in live mode. -/
theorem pose_nonpositive_length_exit_witness :
    (envLiveZero.parseOk = true ∧ envLiveZero.markerLength ≤ 0) ∧
      ((poseMain envLiveZero 1).outcome = Outcome.exit 1 ∧
        (∀ e ∈ (poseMain envLiveZero 1).trace, e.inLoop = false) ∧
        (envLiveZero.hasV = true → Event.parseVideoIn ∈ (poseMain envLiveZero 1).trace) ∧
        (envLiveZero.hasV = false → Event.pipeStart ∈ (poseMain envLiveZero 1).trace)) :=
  ⟨⟨rfl, by decide⟩, pose_nonpositive_length_exit envLiveZero 1 rfl (by decide)⟩

/-- C2: when the command line parses, carries `-v`, and `parse_video_in` returns false, `main`
returns 1 and `start()` is never called (nor is any frame acquired). -/
theorem pose_unopenable_video_exit (env : Env) (fuel : Nat)
    (hparse : env.parseOk = true) (hv : env.hasV = true) (hopen : env.videoOpens = false) :
    (poseMain env fuel).outcome = Outcome.exit 1 ∧
      Event.pipeStart ∉ (poseMain env fuel).trace ∧
      (∀ e ∈ (poseMain env fuel).trace, e.inLoop = false) := by
  unfold poseMain
  simp [hparse, hv, hopen, Event.inLoop]

/-- The exit on an unopenable video, at a command line naming a missing video file. -/
theorem pose_unopenable_video_exit_witness :
    (envVideoMissing.parseOk = true ∧ envVideoMissing.hasV = true ∧
        envVideoMissing.videoOpens = false) ∧
      ((poseMain envVideoMissing 5).outcome = Outcome.exit 1 ∧
        Event.pipeStart ∉ (poseMain envVideoMissing 5).trace ∧
        (∀ e ∈ (poseMain envVideoMissing 5).trace, e.inLoop = false)) :=
  ⟨⟨rfl, rfl, rfl⟩, pose_unopenable_video_exit envVideoMissing 5 rfl rfl rfl⟩

/-! ## The marker-detection tool -/

/-- A turn of the detection loop touches no video file. -/
theorem detectIteration_no_video (env : Env) (fi : FrameInput) :
    ∀ e ∈ (detectIteration env fi).1, e.isVideo = false := by
  intro e he
  unfold detectIteration at he
  split at he
  · simp only [List.mem_cons, List.mem_singleton, List.not_mem_nil, or_false] at he
    rcases he with rfl | rfl | rfl <;> rfl
  · by_cases hi : fi.ids.isEmpty = true
    · simp only [hi, Bool.not_true, Bool.false_eq_true, if_false, List.mem_append,
        List.mem_cons, List.mem_singleton, List.not_mem_nil, or_false, or_assoc] at he
      rcases he with rfl | rfl | rfl | rfl | rfl | rfl | rfl <;> rfl
    · simp only [hi, Bool.not_false, if_true, List.mem_append,
        List.mem_cons, List.mem_singleton, List.not_mem_nil, or_false, or_assoc] at he
      rcases he with rfl | rfl | rfl | rfl | rfl | rfl | rfl | rfl <;> rfl

/-- The detection loop touches no video file. -/
theorem detectLoop_no_video (env : Env) :
    ∀ (fuel i : Nat), ∀ e ∈ (detectLoop env fuel i).1, e.isVideo = false := by
  intro fuel
  induction fuel with
  | zero => intro i e he; simp [detectLoop] at he
  | succ fuel ih =>
    intro i e he
    have hit := detectIteration_no_video env (env.frames i)
    simp only [detectLoop] at he
    split at he
    · rename_i evs heq
      rw [heq] at hit
      rcases List.mem_append.mp he with h | h
      · exact hit e h
      · exact ih (i + 1) e h
    · rename_i evs heq
      rw [heq] at hit
      exact hit e he
    · rename_i evs heq
      rw [heq] at hit
      exact hit e he
    · rename_i evs e2 heq
      rw [heq] at hit
      exact hit e he

/-- The detection loop does not read the flag `-v`. -/
theorem detectLoop_flag (env : Env) (b : Bool) :
    ∀ (fuel i : Nat), detectLoop { env with hasV := b } fuel i = detectLoop env fuel i := by
  intro fuel
  induction fuel with
  | zero => intro i; rfl
  | succ fuel ih =>
    intro i
    simp only [detectLoop]
    rw [ih (i + 1)]
    rfl

/-- C3, as stated, fails: on a command line that parses and carries `-v`, the detection tool
does not open the video file and does call `start()`. -/
theorem detect_ignores_video_flag :
    envVideo.parseOk = true ∧ envVideo.hasV = true ∧
      ¬ (Event.parseVideoIn ∈ (detectMain envVideo 4).trace ∧
          Event.pipeStart ∉ (detectMain envVideo 4).trace) := by
  decide

/-- C3, amended: the marker-detection tool always reads the live camera.  On every command
line that parses, `start()` is called, no video file is opened, grabbed from or released, and
the run is the same with and without `-v`. -/
theorem detect_always_live (env : Env) (fuel : Nat) (hparse : env.parseOk = true) :
    Event.pipeStart ∈ (detectMain env fuel).trace ∧
      (∀ e ∈ (detectMain env fuel).trace, e.isVideo = false) ∧
      (∀ b : Bool, detectMain { env with hasV := b } fuel = detectMain env fuel) := by
  refine ⟨?_, ?_, ?_⟩
  · unfold detectMain
    simp only [hparse, Bool.not_true, Bool.false_eq_true, if_false]
    split
    · simp
    · split <;> simp
  · intro e he
    have hloop := detectLoop_no_video env fuel 0
    unfold detectMain at he
    simp only [hparse, Bool.not_true, Bool.false_eq_true, if_false] at he
    split at he
    · simp only [List.mem_append, List.mem_cons, List.mem_singleton, List.not_mem_nil,
        or_false, or_assoc] at he
      rcases he with rfl | rfl | rfl | rfl <;> rfl
    · split at he
      · rename_i evs c heq
        rw [heq] at hloop
        simp only [List.mem_append, List.mem_cons, List.mem_singleton, List.not_mem_nil,
          or_false, or_assoc] at he
        rcases he with rfl | rfl | rfl | rfl | h | rfl
        · rfl
        · rfl
        · rfl
        · rfl
        · exact hloop e h
        · rfl
      · rename_i evs o _ heq
        rw [heq] at hloop
        simp only [List.mem_append, List.mem_cons, List.mem_singleton, List.not_mem_nil,
          or_false, or_assoc] at he
        rcases he with rfl | rfl | rfl | rfl | h
        · rfl
        · rfl
        · rfl
        · rfl
        · exact hloop e h
  · intro b
    unfold detectMain
    rw [detectLoop_flag env b fuel 0]

/-- The detection tool stays on the live camera, at a command line that carries `-v`. -/
theorem detect_always_live_witness :
    envVideo.parseOk = true ∧
      (Event.pipeStart ∈ (detectMain envVideo 4).trace ∧
        (∀ e ∈ (detectMain envVideo 4).trace, e.isVideo = false) ∧
        (∀ b : Bool, detectMain { envVideo with hasV := b } 4 = detectMain envVideo 4)) :=
  ⟨rfl, detect_always_live envVideo 4 rfl⟩

/-! ## Failure of `start()` -/

/-- The pose-estimation tool handles a throwing `start()` (lines 58-66): in live mode the error
is caught inside `main`, its description is written to standard error, `main` returns 1 and
the frame loop is never entered. -/
theorem pose_start_failure_caught (env : Env) (fuel : Nat) (e : RsError)
    (hparse : env.parseOk = true) (hlive : env.hasV = false)
    (hthrow : env.startThrows = some e) :
    (poseMain env fuel).outcome = Outcome.exit 1 ∧
      Event.cerrRealSense e ∈ (poseMain env fuel).trace ∧
      (∀ ev ∈ (poseMain env fuel).trace, ev.inLoop = false) := by
  unfold poseMain
  simp [hparse, hlive, hthrow, Event.inLoop]

/-- In the marker-detection tool a throwing `start()` (line 29) is not inside any `try`: the
error leaves `main`, and the frame loop is never entered. -/
theorem detect_start_failure_propagates (env : Env) (fuel : Nat) (e : RsError)
    (hparse : env.parseOk = true) (hthrow : env.startThrows = some e) :
    (detectMain env fuel).outcome = Outcome.uncaught e ∧
      (∀ ev ∈ (detectMain env fuel).trace, ev.inLoop = false) := by
  unfold detectMain
  simp [hparse, hthrow, Event.inLoop]

/-- C4, evaluated where it fails: with no camera connected (`start()` throws) the `main` of the
marker-detection tool does not catch the error and does not return 1: the run ends right after
the call of `start()` with the error leaving `main`.  On the same input the pose-estimation
tool does what the claim says: it catches the error, writes its description to standard error
and returns 1. -/
theorem detect_start_failure_uncaught :
    envStartFails.parseOk = true ∧ envStartFails.hasV = false ∧
      envStartFails.startThrows = some noDevice ∧
      detectMain envStartFails 4 =
        { trace := [.parseInputs "Detect ArUco marker images", .getDictionary 0,
            .enableStream 1280 720 30, .pipeStart],
          outcome := Outcome.uncaught noDevice } ∧
      (detectMain envStartFails 4).outcome ≠ Outcome.exit 1 ∧
      poseMain envStartFails 4 =
        { trace := [.parseInputs "Pose estimation of ArUco marker images",
            .enableStream 640 480 30, .pipeStart, .cerrRealSense noDevice],
          outcome := Outcome.exit 1 } := by
  decide

/-! ## The explicit cleanup calls -/

/-- The events of a turn of the pose loop are events of the frame loop. -/
theorem poseIteration_inLoop (env : Env) (fi : FrameInput) :
    ∀ e ∈ (poseIteration env fi).1, e.inLoop = true := by
  have hshow : ∀ e ∈ poseShow, e.inLoop = true := by
    intro e he
    simp only [poseShow, List.mem_cons, List.mem_singleton, List.not_mem_nil, or_false] at he
    rcases he with rfl | rfl <;> rfl
  have hstep : ∀ (t0 r t : Vec3d), ∀ e ∈ axisStep env t0 r t, e.inLoop = true := by
    intro t0 r t e he
    simp only [axisStep, List.mem_cons, List.mem_singleton, List.not_mem_nil, or_false] at he
    rcases he with rfl | rfl | rfl | rfl <;> rfl
  have haxis : ∀ (t0 : Vec3d) (fuel i : Nat), ∀ e ∈ (axisLoop env fi t0 fuel i).1,
      e.inLoop = true := by
    intro t0 fuel
    induction fuel with
    | zero => intro i e he; simp [axisLoop] at he
    | succ fuel ih =>
      intro i e he
      simp only [axisLoop] at he
      split at he
      · split at he
        · rcases List.mem_append.mp he with h | h
          · exact hstep _ _ _ e h
          · exact ih _ e h
        · simp at he
      · simp at he
  have hbody : ∀ e ∈ (poseBody env fi).1, e.inLoop = true := by
    intro e he
    unfold poseBody at he
    split at he
    · split at he
      · rename_i t0 r0 _ _
        have hax := haxis t0 fi.ids.length 0
        split at he
        · rename_i axes heq
          rw [heq] at hax
          simp only [List.mem_append, List.mem_cons, List.mem_singleton, List.not_mem_nil,
            or_false, or_assoc] at he
          rcases he with rfl | rfl | rfl | rfl | rfl | h | h
          · rfl
          · rfl
          · rfl
          · rfl
          · rfl
          · exact hax e h
          · exact hshow e h
        · rename_i axes heq
          rw [heq] at hax
          simp only [List.mem_append, List.mem_cons, List.mem_singleton, List.not_mem_nil,
            or_false, or_assoc] at he
          rcases he with rfl | rfl | rfl | rfl | rfl | h
          · rfl
          · rfl
          · rfl
          · rfl
          · rfl
          · exact hax e h
      · simp only [List.mem_append, List.mem_cons, List.mem_singleton, List.not_mem_nil,
          or_false, or_assoc] at he
        rcases he with rfl | rfl | rfl | rfl <;> rfl
    · simp only [List.mem_append, List.mem_cons, List.mem_singleton, List.not_mem_nil,
        or_false, or_assoc] at he
      rcases he with rfl | rfl | h
      · rfl
      · rfl
      · exact hshow e h
  intro e he
  unfold poseIteration at he
  split at he
  · split at he
    · simp only [List.mem_singleton] at he
      subst he; rfl
    · split at he
      · simp only [List.mem_cons, List.mem_singleton, List.not_mem_nil, or_false] at he
        rcases he with rfl | rfl <;> rfl
      · simp only [List.mem_append, List.mem_cons, List.mem_singleton, List.not_mem_nil,
          or_false, or_assoc] at he
        rcases he with rfl | rfl | h
        · rfl
        · rfl
        · exact hbody e h
  · split at he
    · simp only [List.mem_cons, List.mem_singleton, List.not_mem_nil, or_false] at he
      rcases he with rfl | rfl <;> rfl
    · simp only [List.mem_append, List.mem_cons, List.mem_singleton, List.not_mem_nil,
        or_false, or_assoc] at he
      rcases he with rfl | rfl | rfl | rfl | h
      · rfl
      · rfl
      · rfl
      · rfl
      · exact hbody e h

/-- The events of the pose loop are events of the frame loop. -/
theorem poseLoop_inLoop (env : Env) :
    ∀ (fuel i : Nat), ∀ e ∈ (poseLoop env fuel i).1, e.inLoop = true := by
  intro fuel
  induction fuel with
  | zero => intro i e he; simp [poseLoop] at he
  | succ fuel ih =>
    intro i e he
    have hit := poseIteration_inLoop env (env.frames i)
    simp only [poseLoop] at he
    split at he
    · rename_i evs heq
      rw [heq] at hit
      rcases List.mem_append.mp he with h | h
      · exact hit e h
      · exact ih (i + 1) e h
    · rename_i evs heq
      rw [heq] at hit
      exact hit e he
    · rename_i evs heq
      rw [heq] at hit
      exact hit e he
    · rename_i evs e2 heq
      rw [heq] at hit
      exact hit e he

/-- The frame loop makes no cleanup call. -/
theorem filter_cleanup_inLoop (evs : List Event) (h : ∀ e ∈ evs, e.inLoop = true) :
    evs.filter Event.isStop = [] ∧ evs.filter Event.isRelease = [] := by
  constructor
  · rw [List.filter_eq_nil_iff]
    intro e he
    have := h e he
    cases e <;> simp_all [Event.inLoop, Event.isStop]
  · rw [List.filter_eq_nil_iff]
    intro e he
    have := h e he
    cases e <;> simp_all [Event.inLoop, Event.isRelease]

/-- The part of `main` after the startup, when the marker length is positive: a return has
the status 0 and comes after the loop and the cleanup of lines 156-157. -/
theorem poseAfterStartup_exit (env : Env) (fuel : Nat) (v r : Bool) (c : Int)
    (hlen : ¬ env.markerLength ≤ 0)
    (hret : (poseAfterStartup env fuel v r).outcome = Outcome.exit c) :
    c = 0 ∧ ∃ evs, (∀ e ∈ evs, e.inLoop = true) ∧
      (poseAfterStartup env fuel v r).trace =
        [.getDictionary env.dictionaryId, .readCalibration] ++ evs ++ poseCleanup v r := by
  have hin := poseLoop_inLoop env fuel 0
  unfold poseAfterStartup at hret ⊢
  simp only [hlen, if_false] at hret ⊢
  split at hret
  · rename_i evs code heq
    rw [heq] at hin
    simp only [Outcome.exit.injEq] at hret
    exact ⟨hret.symm, evs, hin, rfl⟩
  · rename_i evs o hno heq
    simp only at hret
    exact absurd hret (hno c)

/-- A return of `main` that comes after a successful startup with a positive marker length:
the status is 0 and the cleanup calls are exactly those of lines 156-157. -/
theorem after_startup_cleanup (env : Env) (fuel : Nat) (v r : Bool) (c : Int)
    (pre : List Event) (hpreS : pre.filter Event.isStop = [])
    (hpreR : pre.filter Event.isRelease = [])
    (hlen : ¬ env.markerLength ≤ 0)
    (hret : ((poseAfterStartup env fuel v r).after pre).outcome = Outcome.exit c) :
    c = 0 ∧
      (∃ p, ((poseAfterStartup env fuel v r).after pre).trace = p ++ poseCleanup v r ∧
        p.filter Event.isStop = [] ∧ p.filter Event.isRelease = []) ∧
      occurrences Event.isStop ((poseAfterStartup env fuel v r).after pre).trace =
        (if r then 1 else 0) ∧
      occurrences Event.isRelease ((poseAfterStartup env fuel v r).after pre).trace =
        (if v then 1 else 0) := by
  have hret2 : (poseAfterStartup env fuel v r).outcome = Outcome.exit c := hret
  obtain ⟨hc, evs, hin, htr⟩ := poseAfterStartup_exit env fuel v r c hlen hret2
  obtain ⟨hS, hR⟩ := filter_cleanup_inLoop evs hin
  have htrace : ((poseAfterStartup env fuel v r).after pre).trace =
      (pre ++ [.getDictionary env.dictionaryId, .readCalibration] ++ evs)
        ++ poseCleanup v r := by
    show pre ++ (poseAfterStartup env fuel v r).trace = _
    rw [htr]
    simp only [List.append_assoc]
  have hpS : (pre ++ [Event.getDictionary env.dictionaryId, Event.readCalibration]
      ++ evs).filter Event.isStop = [] := by
    simp only [List.filter_append, hpreS, hS]
    rfl
  have hpR : (pre ++ [Event.getDictionary env.dictionaryId, Event.readCalibration]
      ++ evs).filter Event.isRelease = [] := by
    simp only [List.filter_append, hpreR, hR]
    rfl
  refine ⟨hc, ⟨_, htrace, hpS, hpR⟩, ?_, ?_⟩
  · rw [htrace]
    unfold occurrences
    rw [List.filter_append, hpS]
    cases v <;> cases r <;> rfl
  · rw [htrace]
    unfold occurrences
    rw [List.filter_append, hpR]
    cases v <;> cases r <;> rfl

/-- With a non-positive marker length the part of `main` after the startup is the error
message and the return of line 75. -/
theorem poseAfterStartup_nonpositive (env : Env) (fuel : Nat) (v r : Bool)
    (hlen : env.markerLength ≤ 0) :
    poseAfterStartup env fuel v r = ⟨[.cerrMarkerLength], Outcome.exit 1⟩ := by
  simp [poseAfterStartup, hlen]

/-- C5, as stated, fails: with the command line `-d 0 -l 0` in live mode `start()` returns, so
the camera pipeline was started, `main` returns (status 1, line 75), and `stop()` has not been
called once before that return. -/
theorem pose_length_return_without_stop :
    envLiveZero.parseOk = true ∧ envLiveZero.hasV = false ∧
      envLiveZero.startThrows = none ∧
      Event.pipeStart ∈ (poseMain envLiveZero 1).trace ∧
      (poseMain envLiveZero 1).outcome = Outcome.exit 1 ∧
      ¬ (occurrences Event.isStop (poseMain envLiveZero 1).trace = 1) := by
  decide

/-- C5, amended: the explicit cleanup calls are made on the path that leaves the frame loop
and only there.  Whenever `main` returns, the status is 0 or 1.  On a return with status 0
(escape key, end of file) the selected stream had been opened, the trace ends with the cleanup
of lines 156-157, and in the whole run `stop()` is called exactly once in live mode and not at
all in video mode, `release()` exactly once in video mode and not at all in live mode.  On a
return with status 1 (parse failure, unopenable video, failing `start()`, non-positive marker
length) `main` calls neither `stop()` nor `release()`.  What the destructors of the stream
objects do at a return is not part of the statement. -/
theorem pose_cleanup_calls (env : Env) (fuel : Nat) (c : Int)
    (hret : (poseMain env fuel).outcome = Outcome.exit c) :
    (c = 0 ∨ c = 1) ∧
      (c = 0 →
        (env.hasV = true → env.videoOpens = true) ∧
        (env.hasV = false → env.startThrows = none) ∧
        (∃ pre, (poseMain env fuel).trace = pre ++ poseCleanup env.hasV (!env.hasV) ∧
          pre.filter Event.isStop = [] ∧ pre.filter Event.isRelease = []) ∧
        occurrences Event.isStop (poseMain env fuel).trace = (if env.hasV then 0 else 1) ∧
        occurrences Event.isRelease (poseMain env fuel).trace = (if env.hasV then 1 else 0)) ∧
      (c = 1 →
        occurrences Event.isStop (poseMain env fuel).trace = 0 ∧
        occurrences Event.isRelease (poseMain env fuel).trace = 0) := by
  have hearly : ∀ (tr : List Event), occurrences Event.isStop tr = 0 →
      occurrences Event.isRelease tr = 0 →
      poseMain env fuel = ⟨tr, Outcome.exit 1⟩ →
      (c = 0 ∨ c = 1) ∧
        (c = 0 →
          (env.hasV = true → env.videoOpens = true) ∧
          (env.hasV = false → env.startThrows = none) ∧
          (∃ pre, (poseMain env fuel).trace = pre ++ poseCleanup env.hasV (!env.hasV) ∧
            pre.filter Event.isStop = [] ∧ pre.filter Event.isRelease = []) ∧
          occurrences Event.isStop (poseMain env fuel).trace = (if env.hasV then 0 else 1) ∧
          occurrences Event.isRelease (poseMain env fuel).trace =
            (if env.hasV then 1 else 0)) ∧
        (c = 1 →
          occurrences Event.isStop (poseMain env fuel).trace = 0 ∧
          occurrences Event.isRelease (poseMain env fuel).trace = 0) := by
    intro tr hS hR hrun
    rw [hrun] at hret
    have hc : c = 1 := by
      simp only [Outcome.exit.injEq] at hret
      exact hret.symm
    subst hc
    rw [hrun]
    exact ⟨Or.inr rfl, fun h => absurd h (by decide), fun _ => ⟨hS, hR⟩⟩
  rcases Bool.eq_false_or_eq_true env.parseOk with hp | hp
  swap
  · exact hearly [.parseInputs "Pose estimation of ArUco marker images"] rfl rfl
      (by simp [poseMain, hp])
  rcases Bool.eq_false_or_eq_true env.hasV with hv | hv
  · rcases Bool.eq_false_or_eq_true env.videoOpens with ho | ho
    swap
    · exact hearly [.parseInputs "Pose estimation of ArUco marker images", .parseVideoIn]
        rfl rfl (by simp [poseMain, hp, hv, ho])
    have hmain : poseMain env fuel = (poseAfterStartup env fuel true false).after
        [.parseInputs "Pose estimation of ArUco marker images", .parseVideoIn] := by
      simp [poseMain, hp, hv, ho]
    by_cases hlen : env.markerLength ≤ 0
    · exact hearly [.parseInputs "Pose estimation of ArUco marker images", .parseVideoIn,
        .cerrMarkerLength] rfl rfl (by
          rw [hmain, poseAfterStartup_nonpositive env fuel true false hlen]
          rfl)
    · rw [hmain] at hret ⊢
      obtain ⟨hc, hpre, hcS, hcR⟩ :=
        after_startup_cleanup env fuel true false c
          [.parseInputs "Pose estimation of ArUco marker images", .parseVideoIn]
          rfl rfl hlen hret
      subst hc
      refine ⟨Or.inl rfl, fun _ => ⟨fun _ => ho, fun h => absurd h (by simp [hv]), ?_, ?_, ?_⟩,
        fun h => absurd h (by decide)⟩
      · simpa [hv] using hpre
      · simpa [hv] using hcS
      · simpa [hv] using hcR
  · rcases Option.eq_none_or_eq_some env.startThrows with hs | ⟨e, hs⟩
    swap
    · exact hearly [.parseInputs "Pose estimation of ArUco marker images",
        .enableStream 640 480 30, .pipeStart, .cerrRealSense e] rfl rfl
        (by simp [poseMain, hp, hv, hs])
    have hmain : poseMain env fuel = (poseAfterStartup env fuel false true).after
        [.parseInputs "Pose estimation of ArUco marker images",
          .enableStream 640 480 30, .pipeStart] := by
      simp [poseMain, hp, hv, hs]
    by_cases hlen : env.markerLength ≤ 0
    · exact hearly [.parseInputs "Pose estimation of ArUco marker images",
        .enableStream 640 480 30, .pipeStart, .cerrMarkerLength] rfl rfl (by
          rw [hmain, poseAfterStartup_nonpositive env fuel false true hlen]
          rfl)
    · rw [hmain] at hret ⊢
      obtain ⟨hc, hpre, hcS, hcR⟩ :=
        after_startup_cleanup env fuel false true c
          [.parseInputs "Pose estimation of ArUco marker images",
            .enableStream 640 480 30, .pipeStart] rfl rfl hlen hret
      subst hc
      refine ⟨Or.inl rfl, fun _ => ⟨fun h => absurd h (by simp [hv]), fun _ => hs, ?_, ?_, ?_⟩,
        fun h => absurd h (by decide)⟩
      · simpa [hv] using hpre
      · simpa [hv] using hcS
      · simpa [hv] using hcR

/-- The cleanup calls at a live run that ends with the escape key in turn 2. -/
theorem pose_cleanup_calls_witness :
    (poseMain envLive 5).outcome = Outcome.exit 0 ∧
      ((0 : Int) = 0 ∨ (0 : Int) = 1) ∧
      ((0 : Int) = 0 →
        (envLive.hasV = true → envLive.videoOpens = true) ∧
        (envLive.hasV = false → envLive.startThrows = none) ∧
        (∃ pre, (poseMain envLive 5).trace = pre ++ poseCleanup envLive.hasV (!envLive.hasV) ∧
          pre.filter Event.isStop = [] ∧ pre.filter Event.isRelease = []) ∧
        occurrences Event.isStop (poseMain envLive 5).trace
          = (if envLive.hasV then 0 else 1) ∧
        occurrences Event.isRelease (poseMain envLive 5).trace
          = (if envLive.hasV then 1 else 0)) ∧
      ((0 : Int) = 1 →
        occurrences Event.isStop (poseMain envLive 5).trace = 0 ∧
        occurrences Event.isRelease (poseMain envLive 5).trace = 0) :=
  ⟨by decide, pose_cleanup_calls envLive 5 0 (by decide)⟩

/-! ## A pull without colour sub-frame -/

/-- The pose-estimation tool skips a pull without colour sub-frame: nothing but the pull and
the lookup of the colour frame happens, and the loop goes on. -/
theorem pose_skips_absent_color (env : Env) (fi : FrameInput)
    (hlive : env.hasV = false) (hc : fi.colorPresent = false) :
    poseIteration env fi = ([.waitForFrames, .getColorFrame], Ctl.next) := by
  simp [poseIteration, hlive, hc]

/-- C6, evaluated where it fails: in the marker-detection tool a pull without colour sub-frame
is not skipped.  The accessors of the absent frame are called; when they throw, the error
leaves the loop and `main` uncaught, and when they return, detection, display and key poll
are performed in that turn. -/
theorem detect_reads_absent_frame :
    frameNoColor.colorPresent = false ∧
      detectIteration envLive frameNoColor =
        ([.waitForFrames, .getColorFrame, .frameAccess false], Ctl.throw nullFrame) ∧
      (detectMain envLive 5).outcome = Outcome.uncaught nullFrame ∧
      detectIteration { envLive with nullAccess := none } frameNoColor =
        ([.waitForFrames, .getColorFrame, .frameAccess false, .clone, .detectMarkers,
          .imshow "Detected markers", .waitKey 1], Ctl.next) := by
  decide

/-! ## End of the frame loop -/

/-- The key check of line 151 sees the polled value through the cast `(char)`: it holds
exactly for the values that are 27 modulo 256. -/
theorem toChar_eq_escape (k : Int) : toChar k = 27 ↔ k % 256 = 27 := by
  unfold toChar
  omega


/-- When the source is exhausted, the turn consists of the failed acquisition only. -/
theorem poseIteration_exhausted (env : Env) (fi : FrameInput)
    (h : exhausted env fi = true) :
    ∀ e ∈ (poseIteration env fi).1, e.isDetect = false ∧ e.isShow = false := by
  intro e he
  unfold exhausted at h
  unfold poseIteration at he
  cases hv : env.hasV <;> cases hg : fi.grabOk <;> cases hr : fi.retrievedEmpty <;>
    simp [hv, hg, hr] at h he
  · subst he; exact ⟨rfl, rfl⟩
  · subst he; exact ⟨rfl, rfl⟩
  · rcases he with rfl | rfl <;> exact ⟨rfl, rfl⟩

/-- C7: once startup has succeeded (the command line parses, the selected stream opens, the
marker length is positive), let `n` be the first turn in which the video source is exhausted
(`grab()` fails or the retrieved frame is empty) or the key polled after the display is the
escape key.  Then with any fuel above `n` the run performs exactly the turns `0, ..., n`, each
earlier turn goes on to the next frame, turn `n` leaves the loop (without detection and
display when the source is exhausted), the cleanup follows, and `main` returns 0.  The
library postconditions `LibPost` are assumed for the frames of these turns. -/
theorem pose_loop_ends_at_first_stop (env : Env) (n fuel : Nat)
    (hparse : env.parseOk = true)
    (hopen : env.hasV = true → env.videoOpens = true)
    (hstart : env.hasV = false → env.startThrows = none)
    (hlen : 0 < env.markerLength)
    (hlib : ∀ j, j ≤ n → LibPost (env.frames j))
    (hearlier : ∀ j, j < n →
      exhausted env (env.frames j) = false ∧ escapePolled env (env.frames j) = false)
    (hstop : exhausted env (env.frames n) = true ∨ escapePolled env (env.frames n) = true)
    (hfuel : n < fuel) :
    (poseMain env fuel).outcome = Outcome.exit 0 ∧
      (∃ pre, (∀ e ∈ pre, e.inLoop = false) ∧
        (poseMain env fuel).trace =
          pre ++ (List.range (n + 1)).flatMap (fun j => (poseIteration env (env.frames j)).1)
            ++ poseCleanup env.hasV (!env.hasV)) ∧
      (∀ j, j < n → (poseIteration env (env.frames j)).2 = Ctl.next) ∧
      (poseIteration env (env.frames n)).2 = Ctl.brk ∧
      (exhausted env (env.frames n) = true →
        ∀ e ∈ (poseIteration env (env.frames n)).1, e.isDetect = false ∧ e.isShow = false) := by
  have hnext : ∀ j, j < n → (poseIteration env (env.frames j)).2 = Ctl.next := by
    intro j hj
    rw [poseIteration_ctl env _ (hlib j (by omega))]
    obtain ⟨h1, h2⟩ := hearlier j hj
    simp [h1, h2]
  have hbrk : (poseIteration env (env.frames n)).2 = Ctl.brk := by
    rw [poseIteration_ctl env _ (hlib n (by omega))]
    rcases hstop with h | h <;> simp [h]
  have hloop := poseLoop_first_break env n 0 fuel hfuel
    (fun j hj => by simpa using hnext j hj) (by simpa using hbrk)
  simp only [Nat.zero_add] at hloop
  have hnot : ¬ env.markerLength ≤ 0 := not_le.mpr hlen
  refine ⟨?_, ?_, hnext, hbrk, poseIteration_exhausted env _⟩
  · unfold poseMain poseAfterStartup Run.after
    cases hv : env.hasV
    · simp [hparse, hstart hv, hnot, hloop]
    · simp [hparse, hopen hv, hnot, hloop]
  · cases hv : env.hasV
    · refine ⟨[.parseInputs "Pose estimation of ArUco marker images",
        .enableStream 640 480 30, .pipeStart, .getDictionary env.dictionaryId,
        .readCalibration], ?_, ?_⟩
      · intro e he
        simp only [List.mem_cons, List.mem_singleton, List.not_mem_nil, or_false] at he
        rcases he with rfl | rfl | rfl | rfl | rfl <;> rfl
      · unfold poseMain poseAfterStartup Run.after
        simp [hparse, hv, hstart hv, hnot, hloop]
    · refine ⟨[.parseInputs "Pose estimation of ArUco marker images",
        .parseVideoIn, .getDictionary env.dictionaryId, .readCalibration], ?_, ?_⟩
      · intro e he
        simp only [List.mem_cons, List.mem_singleton, List.not_mem_nil, or_false] at he
        rcases he with rfl | rfl | rfl | rfl <;> rfl
      · unfold poseMain poseAfterStartup Run.after
        simp [hparse, hv, hopen hv, hnot, hloop]

/-- The end of the frame loop at a live run: the escape key arrives in turn 2, after a turn
with a frame and a turn without colour sub-frame. -/
theorem pose_loop_ends_at_first_stop_witness :
    (poseMain envLive 5).outcome = Outcome.exit 0 ∧
      (∃ pre, (∀ e ∈ pre, e.inLoop = false) ∧
        (poseMain envLive 5).trace =
          pre ++ (List.range (2 + 1)).flatMap
              (fun j => (poseIteration envLive (envLive.frames j)).1)
            ++ poseCleanup envLive.hasV (!envLive.hasV)) ∧
      (∀ j, j < 2 → (poseIteration envLive (envLive.frames j)).2 = Ctl.next) ∧
      (poseIteration envLive (envLive.frames 2)).2 = Ctl.brk ∧
      (exhausted envLive (envLive.frames 2) = true →
        ∀ e ∈ (poseIteration envLive (envLive.frames 2)).1,
          e.isDetect = false ∧ e.isShow = false) :=
  pose_loop_ends_at_first_stop envLive 2 5 rfl (by decide) (by decide) (by decide)
    (by
      intro j hj
      have hcases : j = 0 ∨ j = 1 ∨ j = 2 := by omega
      rcases hcases with rfl | rfl | rfl <;>
        exact ⟨by decide, by decide, by decide⟩)
    (by
      intro j hj
      have hcases : j = 0 ∨ j = 1 := by omega
      rcases hcases with rfl | rfl <;> exact ⟨by decide, by decide⟩)
    (Or.inr (by decide)) (by decide)

/-! ## The calls made for one acquired frame -/

/-- In a turn with a frame, the body follows the acquisition. -/
theorem poseIteration_acquired (env : Env) (fi : FrameInput) (hacq : acquired env fi = true) :
    poseIteration env fi = (acquisition env ++ (poseBody env fi).1, (poseBody env fi).2) := by
  unfold acquired at hacq
  unfold poseIteration acquisition
  cases hv : env.hasV <;> cases hg : fi.grabOk <;> cases hr : fi.retrievedEmpty <;>
    cases hc : fi.colorPresent <;> simp [hv, hg, hr, hc] at hacq ⊢

/-- The text readouts among the calls of the marker loop: three per marker. -/
theorem filter_isText_axes (env : Env) (t0 : Vec3d) (l : List (Vec3d × Vec3d)) :
    (l.flatMap (fun p => axisStep env t0 p.1 p.2)).filter Event.isText =
      (List.replicate l.length
        [Event.drawText "x" t0.v0 10 30, Event.drawText "y" t0.v1 10 50,
          Event.drawText "z" t0.v2 10 70]).flatten := by
  induction l with
  | nil => simp
  | cons p l ih =>
    rw [List.flatMap_cons, List.filter_append, ih, List.length_cons, List.replicate_succ,
      List.flatten_cons]
    simp [axisStep, Event.isText, List.filter_cons]

/-- A predicate that no call of the marker loop satisfies selects nothing from it. -/
theorem filter_axes_nil (env : Env) (t0 : Vec3d) (p : Event → Bool)
    (hp : ∀ r t, (axisStep env t0 r t).filter p = []) (l : List (Vec3d × Vec3d)) :
    (l.flatMap (fun q => axisStep env t0 q.1 q.2)).filter p = [] := by
  induction l with
  | nil => rfl
  | cons q l ih => rw [List.flatMap_cons, List.filter_append, ih, hp, List.append_nil]

/-- C8: for every acquired frame (with the library postconditions), `detectMarkers` is
called exactly once and the frame is displayed exactly once.  With at least one marker id,
`estimatePoseSingleMarkers` is called exactly once, on the detected corners, the marker length
of `-l` and the loaded calibration, and exactly one line is written to standard output, holding
`tvecs[0]` and `rvecs[0]`.  With no marker id there is no pose estimation and no line. -/
theorem pose_frame_detect_estimate_log (env : Env) (fi : FrameInput)
    (hacq : acquired env fi = true) (hlib : LibPost fi) :
    occurrences Event.isDetect (poseIteration env fi).1 = 1 ∧
      occurrences Event.isShow (poseIteration env fi).1 = 1 ∧
      (fi.ids ≠ [] → ∃ t0 r0, fi.tvecs[0]? = some t0 ∧ fi.rvecs[0]? = some r0 ∧
        (poseIteration env fi).1.filter Event.isEstimate =
          [.estimatePose fi.corners env.markerLength env.cameraMatrix env.distCoeffs] ∧
        (poseIteration env fi).1.filter Event.isCout = [.coutPose t0 r0]) ∧
      (fi.ids = [] →
        (poseIteration env fi).1.filter Event.isEstimate = [] ∧
        (poseIteration env fi).1.filter Event.isCout = []) := by
  rw [poseIteration_acquired env fi hacq]
  have hacqD : (acquisition env).filter Event.isDetect = [] := by
    unfold acquisition; split <;> rfl
  have hacqS : (acquisition env).filter Event.isShow = [] := by
    unfold acquisition; split <;> rfl
  have hacqE : (acquisition env).filter Event.isEstimate = [] := by
    unfold acquisition; split <;> rfl
  have hacqC : (acquisition env).filter Event.isCout = [] := by
    unfold acquisition; split <;> rfl
  by_cases h : fi.ids = []
  · rw [poseBody_no_marker env fi h]
    refine ⟨?_, ?_, fun hne => absurd h hne, fun _ => ⟨?_, ?_⟩⟩
    · simp [occurrences, List.filter_append, hacqD, poseShow, Event.isDetect, List.filter_cons]
    · simp [occurrences, List.filter_append, hacqS, poseShow, Event.isShow, List.filter_cons]
    · simp [List.filter_append, hacqE, poseShow, Event.isEstimate, List.filter_cons]
    · simp [List.filter_append, hacqC, poseShow, Event.isCout, List.filter_cons]
  · obtain ⟨t0, r0, ht0, hr0, hb⟩ := poseBody_markers env fi hlib h
    rw [hb]
    have haxD := filter_axes_nil env t0 Event.isDetect (fun _ _ => rfl)
      (List.zip fi.rvecs fi.tvecs)
    have haxS := filter_axes_nil env t0 Event.isShow (fun _ _ => rfl)
      (List.zip fi.rvecs fi.tvecs)
    have haxE := filter_axes_nil env t0 Event.isEstimate (fun _ _ => rfl)
      (List.zip fi.rvecs fi.tvecs)
    have haxC := filter_axes_nil env t0 Event.isCout (fun _ _ => rfl)
      (List.zip fi.rvecs fi.tvecs)
    refine ⟨?_, ?_, fun _ => ⟨t0, r0, ht0, hr0, ?_, ?_⟩, fun he => absurd he h⟩
    · simp only [occurrences, List.filter_append, hacqD, haxD]
      rfl
    · simp only [occurrences, List.filter_append, hacqS, haxS]
      rfl
    · simp only [List.filter_append, hacqE, haxE]
      rfl
    · simp only [List.filter_append, hacqC, haxC]
      rfl

/-- The calls for one acquired frame, at a frame with two markers. -/
theorem pose_frame_detect_estimate_log_witness :
    occurrences Event.isDetect (poseIteration envLive frameTwoMarkers).1 = 1 ∧
      occurrences Event.isShow (poseIteration envLive frameTwoMarkers).1 = 1 ∧
      (frameTwoMarkers.ids ≠ [] → ∃ t0 r0,
        frameTwoMarkers.tvecs[0]? = some t0 ∧ frameTwoMarkers.rvecs[0]? = some r0 ∧
        (poseIteration envLive frameTwoMarkers).1.filter Event.isEstimate =
          [.estimatePose frameTwoMarkers.corners envLive.markerLength envLive.cameraMatrix
            envLive.distCoeffs] ∧
        (poseIteration envLive frameTwoMarkers).1.filter Event.isCout = [.coutPose t0 r0]) ∧
      (frameTwoMarkers.ids = [] →
        (poseIteration envLive frameTwoMarkers).1.filter Event.isEstimate = [] ∧
        (poseIteration envLive frameTwoMarkers).1.filter Event.isCout = []) :=
  pose_frame_detect_estimate_log envLive frameTwoMarkers (by decide)
    ⟨by decide, by decide, by decide⟩

/-- Every call of the marker loop is a drawing call. -/
theorem filter_isDraw_axes (env : Env) (t0 : Vec3d) (l : List (Vec3d × Vec3d)) :
    (l.flatMap (fun p => axisStep env t0 p.1 p.2)).filter Event.isDraw =
      l.flatMap (fun p => axisStep env t0 p.1 p.2) := by
  induction l with
  | nil => rfl
  | cons p l ih =>
    rw [List.flatMap_cons, List.filter_append, ih]
    rfl

/-- The text readouts of an acquired frame with markers: three per marker, all showing the
translation `t0` found at `tvecs[0]`. -/
theorem pose_text_calls (env : Env) (fi : FrameInput) (t0 : Vec3d)
    (hacq : acquired env fi = true) (hlib : LibPost fi) (hn : fi.ids ≠ [])
    (ht0 : fi.tvecs[0]? = some t0) :
    (poseIteration env fi).1.filter Event.isText =
      (List.replicate fi.ids.length
        [Event.drawText "x" t0.v0 10 30, Event.drawText "y" t0.v1 10 50,
          Event.drawText "z" t0.v2 10 70]).flatten := by
  obtain ⟨t1, r0, ht1, -, hb⟩ := poseBody_markers env fi hlib hn
  have heq : t1 = t0 := by
    rw [ht0] at ht1
    exact (Option.some.inj ht1).symm
  subst heq
  have hlen : (List.zip fi.rvecs fi.tvecs).length = fi.ids.length := by
    obtain ⟨h1, h2, h3⟩ := hlib
    rw [List.length_zip]
    omega
  have hacqT : (acquisition env).filter Event.isText = [] := by
    unfold acquisition; split <;> rfl
  rw [poseIteration_acquired env fi hacq, hb]
  simp only [List.filter_append, hacqT, filter_isText_axes, hlen]
  simp [poseShow, Event.isText, List.filter_cons]

/-- C9: for every acquired frame with `n >= 1` detected markers (and the library
postconditions), the drawing calls are one `drawDetectedMarkers` over all markers, followed for
each pose pair `(rvecs[i], tvecs[i])`, `i = 0, ..., n - 1` in order, by one `drawAxis` with
that pair and the length `0.1` and by the readouts `x`, `y`, `z` at `(10,30)`, `(10,50)`,
`(10,70)` showing the components 0, 1, 2 of `tvecs[0]`.  The readout calls are determined by
`n` and `tvecs[0]` alone, so they are the same for any other frame with as many markers and
the same first translation. -/
theorem pose_overlay_calls (env : Env) (fi : FrameInput)
    (hacq : acquired env fi = true) (hlib : LibPost fi) (hn : fi.ids ≠ []) :
    ∃ t0, fi.tvecs[0]? = some t0 ∧
      (∀ i, i < fi.ids.length → ∃ r t, fi.rvecs[i]? = some r ∧ fi.tvecs[i]? = some t ∧
        (List.zip fi.rvecs fi.tvecs)[i]? = some (r, t)) ∧
      (List.zip fi.rvecs fi.tvecs).length = fi.ids.length ∧
      (poseIteration env fi).1.filter Event.isDraw =
        Event.drawDetectedMarkers fi.corners fi.ids ::
          (List.zip fi.rvecs fi.tvecs).flatMap (fun p =>
            [ Event.drawAxis env.cameraMatrix env.distCoeffs p.1 p.2 (1 / 10),
              Event.drawText "x" t0.v0 10 30,
              Event.drawText "y" t0.v1 10 50,
              Event.drawText "z" t0.v2 10 70 ]) ∧
      (poseIteration env fi).1.filter Event.isText =
        (List.replicate fi.ids.length
          [Event.drawText "x" t0.v0 10 30, Event.drawText "y" t0.v1 10 50,
            Event.drawText "z" t0.v2 10 70]).flatten ∧
      (∀ fi2 : FrameInput, acquired env fi2 = true → LibPost fi2 →
        fi2.ids.length = fi.ids.length → fi2.tvecs[0]? = some t0 →
        (poseIteration env fi2).1.filter Event.isText =
          (poseIteration env fi).1.filter Event.isText) := by
  obtain ⟨t0, r0, ht0, -, hb⟩ := poseBody_markers env fi hlib hn
  have hl := hlib
  obtain ⟨h1, h2, h3⟩ := hl
  have hacqD : (acquisition env).filter Event.isDraw = [] := by
    unfold acquisition; split <;> rfl
  refine ⟨t0, ht0, ?_, ?_, ?_, pose_text_calls env fi t0 hacq hlib hn ht0, ?_⟩
  · intro i hi
    have hri : i < fi.rvecs.length := by omega
    have hti : i < fi.tvecs.length := by omega
    refine ⟨fi.rvecs[i], fi.tvecs[i], List.getElem?_eq_getElem hri,
      List.getElem?_eq_getElem hti, ?_⟩
    rw [List.getElem?_zip_eq_some]
    exact ⟨List.getElem?_eq_getElem hri, List.getElem?_eq_getElem hti⟩
  · rw [List.length_zip]
    omega
  · rw [poseIteration_acquired env fi hacq, hb]
    simp only [List.filter_append, hacqD, filter_isDraw_axes]
    simp [poseShow, Event.isDraw, List.filter_cons, axisStep, axisLength]
  · intro fi2 hacq2 hlib2 hlen2 ht2
    have hn2 : fi2.ids ≠ [] := by
      intro h
      have h0 : fi.ids.length = 0 := by rw [← hlen2, h]; rfl
      exact hn (List.length_eq_zero.mp h0)
    rw [pose_text_calls env fi2 t0 hacq2 hlib2 hn2 ht2,
      pose_text_calls env fi t0 hacq hlib hn ht0, hlen2]

/-- The overlay calls, at a frame with two markers. -/
theorem pose_overlay_calls_witness :
    ∃ t0, frameTwoMarkers.tvecs[0]? = some t0 ∧
      (∀ i, i < frameTwoMarkers.ids.length → ∃ r t,
        frameTwoMarkers.rvecs[i]? = some r ∧ frameTwoMarkers.tvecs[i]? = some t ∧
        (List.zip frameTwoMarkers.rvecs frameTwoMarkers.tvecs)[i]? = some (r, t)) ∧
      (List.zip frameTwoMarkers.rvecs frameTwoMarkers.tvecs).length
        = frameTwoMarkers.ids.length ∧
      (poseIteration envLive frameTwoMarkers).1.filter Event.isDraw =
        Event.drawDetectedMarkers frameTwoMarkers.corners frameTwoMarkers.ids ::
          (List.zip frameTwoMarkers.rvecs frameTwoMarkers.tvecs).flatMap (fun p =>
            [ Event.drawAxis envLive.cameraMatrix envLive.distCoeffs p.1 p.2 (1 / 10),
              Event.drawText "x" t0.v0 10 30,
              Event.drawText "y" t0.v1 10 50,
              Event.drawText "z" t0.v2 10 70 ]) ∧
      (poseIteration envLive frameTwoMarkers).1.filter Event.isText =
        (List.replicate frameTwoMarkers.ids.length
          [Event.drawText "x" t0.v0 10 30, Event.drawText "y" t0.v1 10 50,
            Event.drawText "z" t0.v2 10 70]).flatten ∧
      (∀ fi2 : FrameInput, acquired envLive fi2 = true → LibPost fi2 →
        fi2.ids.length = frameTwoMarkers.ids.length → fi2.tvecs[0]? = some t0 →
        (poseIteration envLive fi2).1.filter Event.isText =
          (poseIteration envLive frameTwoMarkers).1.filter Event.isText) :=
  pose_overlay_calls envLive frameTwoMarkers (by decide)
    ⟨by decide, by decide, by decide⟩ (by decide)

/-! ## Vector accesses -/

/-- Without the library postconditions the lookup `tvecs[0]` can miss. -/
theorem poseIteration_fault_reachable :
    (poseIteration envLive frameNoPose).2 = Ctl.fault := by
  decide

/-- C10: under the library postconditions (`ids` and `corners` of equal length, `rvecs` and
`tvecs` with one entry per entry of `corners`), whenever `ids` is non-empty the indices `0`
and every `i` below `ids.size()` are within the bounds of `rvecs` and `tvecs`; accordingly no
turn of the frame loop and no run of `main` ends in an out-of-bounds access. -/
theorem pose_vector_access_in_bounds (env : Env) (fuel : Nat)
    (hlib : ∀ i, LibPost (env.frames i)) :
    (∀ i, (env.frames i).ids ≠ [] →
        0 < (env.frames i).tvecs.length ∧ 0 < (env.frames i).rvecs.length ∧
        ∀ k, k < (env.frames i).ids.length →
          k < (env.frames i).rvecs.length ∧ k < (env.frames i).tvecs.length) ∧
      (∀ i, (poseIteration env (env.frames i)).2 ≠ Ctl.fault) ∧
      (∀ i, (poseLoop env fuel i).2 ≠ Outcome.fault) ∧
      (poseMain env fuel).outcome ≠ Outcome.fault := by
  have hloop := poseLoop_no_fault env hlib fuel
  refine ⟨?_, fun i => poseIteration_no_fault env _ (hlib i), hloop, ?_⟩
  · intro i hne
    obtain ⟨h1, h2, h3⟩ := hlib i
    have hpos : 0 < (env.frames i).ids.length := List.length_pos.mpr hne
    refine ⟨by omega, by omega, fun k hk => ⟨by omega, by omega⟩⟩
  · have h0 := hloop 0
    unfold poseMain poseAfterStartup Run.after
    split
    · simp
    · split
      · split
        · simp
        · split
          · simp
          · split
            · simp
            · rename_i evs o _ heq
              rw [heq] at h0
              simpa using h0
      · split
        · simp
        · split
          · simp
          · split
            · simp
            · rename_i evs o _ heq
              rw [heq] at h0
              simpa using h0

/-- The vector accesses stay in bounds, at a live run of five turns. -/
theorem pose_vector_access_in_bounds_witness :
    (∀ i, (envLive.frames i).ids ≠ [] →
        0 < (envLive.frames i).tvecs.length ∧ 0 < (envLive.frames i).rvecs.length ∧
        ∀ k, k < (envLive.frames i).ids.length →
          k < (envLive.frames i).rvecs.length ∧ k < (envLive.frames i).tvecs.length) ∧
      (∀ i, (poseIteration envLive (envLive.frames i)).2 ≠ Ctl.fault) ∧
      (∀ i, (poseLoop envLive 5 i).2 ≠ Outcome.fault) ∧
      (poseMain envLive 5).outcome ≠ Outcome.fault :=
  pose_vector_access_in_bounds envLive 5 (by
    intro i
    show LibPost (if i = 1 then frameNoColor else if i = 2 then frameTwoMarkers else frameIdle)
    split
    · exact ⟨by decide, by decide, by decide⟩
    · split
      · exact ⟨by decide, by decide, by decide⟩
      · exact ⟨by decide, by decide, by decide⟩)

end Aruco
